import Mathlib

/-!
Shallow embedding of the active-record core of the `kyo` repository
(`app/common/db.py`, `app/common/utils.py`, `app/common/errors.py`).

Entities are modelled as finite attribute maps (association lists from
attribute name to Python value), the database as a list of persisted
instances, and each active-record operation as a Lean function that also
reports the observable session/transaction events the specification
talks about (session opened, query issued, rollback, merge).
Python exceptions are modelled with `Except`.
-/

namespace Kyo

/-- A `datetime.date` value (year, month, day). -/
structure PyDate where
  year : Nat
  month : Nat
  day : Nat
deriving Repr, DecidableEq

/-- A `datetime.datetime` value, to second precision. -/
structure PyDateTime where
  year : Nat
  month : Nat
  day : Nat
  hour : Nat
  minute : Nat
  second : Nat
deriving Repr, DecidableEq

/-- The scalar Python values an entity attribute can hold
(strings, dates, datetimes, integers, booleans, None). -/
inductive Value where
  | vNone
  | vBool (b : Bool)
  | vInt (n : Int)
  | vStr (s : String)
  | vDate (d : PyDate)
  | vDatetime (dt : PyDateTime)
deriving Repr, DecidableEq

/-- Python's `isinstance(v, int)`: true for `int` and for `bool`
(in Python, `bool` is a subclass of `int`). -/
def Value.isinstanceInt : Value → Bool
  | .vInt _ => true
  | .vBool _ => true
  | _ => false

/-- The exceptions that can cross the active-record boundary: the domain
errors of `app/common/errors.py`, plus the low-level Python exceptions
(`NameError`, `TypeError`, `ValueError`) that the embedded code can raise. -/
inductive PyError where
  | nameError
  | typeError (msg : String)
  | valueError (msg : String)
  | savingModelFailed (msg : String)
  | unableToSaveModelInDB (msg : String)
  | invalidModelId (msg : String)
  | unknownModelId
  | fetchingModelFailed (msg : String)
  | invalidModelAttribute (msg : String)
  | selectingModelsFailed (msg : String)
  | unableToFetchModelFromDB (msg : String)
  | unableToSelectFromDB (msg : String)
  | unableToDeleteModelFromDB (msg : String)
  | unableToCreateModelFromJSON (msg : String)
deriving Repr, DecidableEq

/-- A model instance: its `__dict__`, an association list from attribute
name to value (keys are unique in a Python `__dict__`). -/
structure Inst where
  attrs : List (String × Value)
deriving Repr, DecidableEq

/-- Attribute access `self.id`: an unset column attribute reads as `None`. -/
def Inst.idVal (e : Inst) : Value :=
  (e.attrs.lookup "id").getD Value.vNone

/-- The persisted database state: a list of rows, each a model instance. -/
abbrev DB := List Inst

/- ### Session provider (`db.session`, `db.py` lines 48-70)

`session` is a `@contextmanager` generator:

    connection = engine().connect()
    session = Session(bind=connection)
    yield session
    session.close()
    connection.close()

The `yield` is NOT wrapped in `try/finally`.  Under
`contextlib.contextmanager` semantics, a normal exit of the `with` block
resumes the generator past the yield, running both `close()` calls; an
exception in the body is delivered into the generator at the yield point
by `gen.throw`, and with no enclosing handler it propagates out of the
generator immediately, skipping both `close()` calls. -/

/-- Open/closed state of the one connection and one session a call acquires. -/
structure ResState where
  connOpen : Bool
  sessOpen : Bool
deriving Repr, DecidableEq

/-- What the body of a `with session() as s:` block does: return a value
or raise an exception. -/
inductive Outcome (α : Type) where
  | ok (a : α)
  | raised (e : PyError)
deriving Repr, DecidableEq

/-- `with session() as s: body` — the generator-based context manager of
`db.py`.  Setup opens the connection and the session; a normal return
runs the two `close()` calls; a raised exception re-enters the generator
at the bare `yield` and propagates, skipping both `close()` calls. -/
def with_session {α : Type} (body : Outcome α) : Outcome α × ResState :=
  match body with
  | .ok a => (.ok a, { connOpen := false, sessOpen := false })
  | .raised e => (.raised e, { connOpen := true, sessOpen := true })

/- ### fetch (`Base.fetch`, `db.py` lines 185-252) -/

/-- Observable database interaction of one `fetch` call. -/
structure FetchLog where
  sessionOpened : Bool
  queryIssued : Bool
deriving Repr, DecidableEq

/-- `Base.fetch(cls, logger='', id=None)`.

Mirrors the source: the guard
`if id is None or not isinstance(id, int): raise InvalidModelId(...)`
runs before `with session()`, so on that path no session is opened and
no query issued.  Otherwise a session is opened and
`db.query(cls).filter_by(id=id).one()` runs: zero rows raise
`NoResultFound`, translated to `UnknownModelId` (raised bare, no
message); several rows raise `MultipleResultsFound`, a
`SQLAlchemyError`, translated to `UnableToFetchModelFromDB`. -/
def fetch (id : Value) (db : DB) : Except PyError Inst × FetchLog :=
  if id = Value.vNone ∨ ¬ id.isinstanceInt then
    (.error (.invalidModelId "Model\x27s id must be of type int"), ⟨false, false⟩)
  else
    match db.filter (fun r => decide (r.idVal = id)) with
    | [] => (.error .unknownModelId, ⟨true, true⟩)
    | [m] => (.ok m, ⟨true, true⟩)
    | _ => (.error (.unableToFetchModelFromDB "Multiple rows were found when one was required"),
            ⟨true, true⟩)

/-- `instance.fetch()` with the `id` argument omitted.  `fetch` is a
`@classmethod`: Python passes the class, not the instance, so the call
never sees `self` and `id` keeps its default `None`, whatever the
instance's own `id` attribute holds. -/
def fetch_on_instance (_self : Inst) (db : DB) : Except PyError Inst × FetchLog :=
  fetch Value.vNone db

/- ### save (`Base.save`, `db.py` lines 120-183) -/

/-- How the `db.commit()` call behaves on a given call: it succeeds, or the
storage layer raises a `SQLAlchemyError`, or some other exception is raised. -/
inductive CommitOutcome where
  | success
  | sqlalchemyError (msg : String)
  | unknownError (msg : String)
deriving Repr, DecidableEq

/-- Result of a `save` call, with the observable transaction events. -/
structure SaveResult where
  result : Except PyError Inst
  db : DB
  mergedFirst : Bool
  rolledBack : Bool
deriving Repr

/-- Two rows conflict when they carry the same primary key. -/
def sameId (a b : Inst) : Bool :=
  decide (a.idVal = b.idVal)

/-- Effect of a successful commit of the staged instance: an instance whose
`id` is an existing row's id updates that row in place; otherwise a new row
is inserted (the storage engine assigns a fresh autoincrement id when the
staged `id` is `None`). -/
def commitStaged (db : DB) (staged : Inst) : DB :=
  if staged.idVal = Value.vNone then
    let fresh : Int := (db.map (fun r => match r.idVal with
      | .vInt n => n
      | _ => 0)).foldl max 0 + 1
    db ++ [⟨("id", Value.vInt fresh) :: staged.attrs.filter (fun kv => kv.1 ≠ "id")⟩]
  else if db.any (sameId staged) then
    db.map (fun r => if sameId staged r then staged else r)
  else
    db ++ [staged]

/-- `Base.save(self, logger='')`.

Mirrors the source: inside `with session()`, when `self.id is not None`
the instance is first merged (`self = db.merge(self)`), then staged with
`db.add(self)`, then `db.commit()` is attempted.  A `SQLAlchemyError`
rolls the transaction back and raises `UnableToSaveModelInDB(str(e))`;
any other exception rolls back and raises `SavingModelFailed(str(e))`;
on success the staged instance is returned.  On a rollback the persisted
state is unchanged. -/
def save (self : Inst) (db : DB) (commit : CommitOutcome) : SaveResult :=
  let merged := self.idVal ≠ Value.vNone
  let staged := self
  match commit with
  | .success =>
      { result := .ok staged
        db := commitStaged db staged
        mergedFirst := merged
        rolledBack := false }
  | .sqlalchemyError msg =>
      { result := .error (.unableToSaveModelInDB msg)
        db := db
        mergedFirst := merged
        rolledBack := true }
  | .unknownError msg =>
      { result := .error (.savingModelFailed msg)
        db := db
        mergedFirst := merged
        rolledBack := true }

/- ### select (`Base.select`, `db.py` lines 254-314) -/

/-- One row satisfies the `filter_by(**kwargs)` conjunction when every
given attribute compares equal on that row. -/
def matchesFilters (filters : List (String × Value)) (r : Inst) : Bool :=
  filters.all (fun kv => decide (r.attrs.lookup kv.1 = some kv.2))

/-- `query.limit(limit)`: `limit(None)` is a no-op, `limit(n)` keeps at
most the first `n` rows. -/
def applyLimit (l : List Inst) : Option Nat → List Inst
  | none => l
  | some n => l.take n

/-- `Base.select(cls, logger='', limit=None, **kwargs)`.

Mirrors the source: inside `with session()`,
`db.query(cls).filter_by(**kwargs).limit(limit).all()` runs and its list
is returned.  A filter key that is not a mapped attribute of the entity
makes `filter_by` raise `InvalidRequestError`, translated to
`InvalidModelAttribute(str(e))`; `schema` lists the entity's mapped
attribute names. -/
def select (schema : List String) (db : DB) (filters : List (String × Value))
    (limit : Option Nat) : Except PyError (List Inst) :=
  if filters.all (fun kv => schema.contains kv.1) then
    .ok (applyLimit (db.filter (matchesFilters filters)) limit)
  else
    .error (.invalidModelAttribute "Entity has no property with that key")

/- ### is_date (`utils.py` lines 54-68)

    def is_date(date_string, fuzzy=False):
        try:
            parse(string, fuzzy=fuzzy)
        except ValueError:
            return False
        return True

The parameter is named `date_string`, but the body applies `parse` to the
name `string`, which is bound nowhere (not a parameter, not a module
global, not a builtin).  Evaluating `string` therefore raises
`NameError`; the `except ValueError` clause does not catch a
`NameError`, so every call raises before either `return` is reached. -/

/-- `utils.is_date(date_string, fuzzy=False)`: raises `NameError` on every
call, because the body reads the undefined name `string` instead of its
parameter `date_string`. -/
def is_date (_date_string : Value) (_fuzzy : Bool := false) : Except PyError Bool :=
  .error .nameError

/- ### serialization (`Base.to_dict` / `to_json` / `from_dict` / `from_json`,
`db.py` lines 373-563) -/

/-- `key.startswith('_')`: the name's first character is an underscore
(code point 95). -/
def startsUnderscore (s : String) : Bool :=
  match s.data with
  | c :: _ => c = Char.ofNat 95
  | [] => false

/-- The public items of `self.__dict__`: every attribute whose name does
not start with the private prefix `_`. -/
def publicItems (e : Inst) : List (String × Value) :=
  e.attrs.filter (fun kv => !(startsUnderscore kv.1))

/-- `Base.to_dict(self, logger='')`: the mapping of every non-underscore
attribute of `self.__dict__` to its current value, unchanged. -/
def to_dict (e : Inst) : List (String × Value) :=
  publicItems e

/-- Left-pad a numeral with zeros, as Python's `isoformat` does. -/
def padNum (width n : Nat) : String :=
  let s := toString n
  String.mk (List.replicate (width - s.length) Character) ++ s
where Character : Char := Char.ofNat 48

/-- `date.isoformat()`: `YYYY-MM-DD`. -/
def PyDate.isoformat (d : PyDate) : String :=
  padNum 4 d.year ++ "-" ++ padNum 2 d.month ++ "-" ++ padNum 2 d.day

/-- `datetime.isoformat()`: `YYYY-MM-DDTHH:MM:SS`. -/
def PyDateTime.isoformat (dt : PyDateTime) : String :=
  padNum 4 dt.year ++ "-" ++ padNum 2 dt.month ++ "-" ++ padNum 2 dt.day ++ "T" ++
    padNum 2 dt.hour ++ ":" ++ padNum 2 dt.minute ++ ":" ++ padNum 2 dt.second

/-- `json.dumps` of one scalar value (strings with the characters our
value model carries need no escaping beyond the quotes). -/
def dumpsValue : Value → String
  | .vNone => "null"
  | .vBool b => if b then "true" else "false"
  | .vInt n => toString n
  | .vStr s => "\"" ++ s ++ "\""
  | .vDate d => "\"" ++ d.isoformat ++ "\""
  | .vDatetime dt => "\"" ++ dt.isoformat ++ "\""

/-- `json.dumps` of a flat dict. -/
def json_dumps (pairs : List (String × Value)) : String :=
  "\x7b" ++ String.intercalate ", "
    (pairs.map (fun kv => "\"" ++ kv.1 ++ "\": " ++ dumpsValue kv.2)) ++ "\x7d"

/-- `Base.to_json(self, logger='')`: like `to_dict`, but date/datetime
values are rendered with `isoformat()`, and the mapping is serialized
with `json.dumps`. -/
def to_json (e : Inst) : String :=
  json_dumps
    ((publicItems e).map (fun kv =>
      match kv.2 with
      | .vDate d => (kv.1, Value.vStr d.isoformat)
      | .vDatetime dt => (kv.1, Value.vStr dt.isoformat)
      | v => (kv.1, v)))

/-- `date.fromisoformat`, for the `YYYY-MM-DD` form; any other text raises
`ValueError`. -/
def date_fromisoformat (s : String) : Except PyError Value :=
  match s.splitOn "-" with
  | [y, m, d] =>
      match y.toNat?, m.toNat?, d.toNat? with
      | some yn, some mn, some dn => .ok (.vDate ⟨yn, mn, dn⟩)
      | _, _, _ => .error (.valueError ("Invalid isoformat string: " ++ s))
  | _ => .error (.valueError ("Invalid isoformat string: " ++ s))

/-- `datetime.fromisoformat`, for the `YYYY-MM-DDTHH:MM:SS` form; any
other text raises `ValueError`. -/
def datetime_fromisoformat (s : String) : Except PyError Value :=
  match s.splitOn "T" with
  | [ds, ts] =>
      match ds.splitOn "-", ts.splitOn ":" with
      | [y, m, d], [h, mi, sec] =>
          match y.toNat?, m.toNat?, d.toNat?, h.toNat?, mi.toNat?, sec.toNat? with
          | some yn, some mn, some dn, some hn, some min, some sn =>
              .ok (.vDatetime ⟨yn, mn, dn, hn, min, sn⟩)
          | _, _, _, _, _, _ => .error (.valueError ("Invalid isoformat string: " ++ s))
      | _, _ => .error (.valueError ("Invalid isoformat string: " ++ s))
  | _ => .error (.valueError ("Invalid isoformat string: " ++ s))

/-- The conversion loop of `from_dict`: for each item, `is_date(value)`
is consulted; a detected date string is parsed as a datetime when it
contains a literal `T` and as a date otherwise (`'T' in value` on a
non-string value would raise `TypeError`); all other values pass through
unchanged.  Since `is_date` raises `NameError`, any first item makes the
whole loop raise. -/
def convertItems : List (String × Value) → Except PyError (List (String × Value))
  | [] => .ok []
  | (key, value) :: rest => do
      let b ← is_date value
      let item ←
        if b then
          match value with
          | .vStr s =>
              if s.contains Tchar then
                (datetime_fromisoformat s).map (fun v => (key, v))
              else
                (date_fromisoformat s).map (fun v => (key, v))
          | _ => .error (.typeError "argument of type is not iterable")
        else
          pure (key, value)
      let tail ← convertItems rest
      pure (item :: tail)
where Tchar : Char := Char.ofNat 84

/-- `Base.from_dict(cls, dict_to_convert, logger='')`: runs the conversion
loop over the items of the dict, then instantiates the class with the
converted mapping (`cls(**to_convert)`). -/
def from_dict (dict_to_convert : List (String × Value)) : Except PyError Inst :=
  (convertItems dict_to_convert).map (fun l => ⟨l⟩)

/-- `Base.from_json(cls, json_to_convert, logger='')`: tries
`json.loads(json_to_convert)`; a `JSONDecodeError` (the only exception
`json.loads` raises on a text input) is translated to
`UnableToCreateModelFromJSON(str(e))`; on success the decoded dict is
handed to `cls.from_dict`.  `loads` stands for the standard-library JSON
parser, with the decode-error message as its error. -/
def from_json (loads : String → Except String (List (String × Value)))
    (json_to_convert : String) : Except PyError Inst :=
  match loads json_to_convert with
  | .error msg => .error (.unableToCreateModelFromJSON msg)
  | .ok dict_to_convert => from_dict dict_to_convert

/- ### textual representation (`Base.__repr__`, `db.py` lines 565-575) -/

/-- Python's `repr` of the scalar values of the model (string escaping of
special characters is elided: the quoted form is the one `repr` produces
for strings without quotes or backslashes). -/
def pyRepr : Value → String
  | .vNone => "None"
  | .vBool b => if b then "True" else "False"
  | .vInt n => toString n
  | .vStr s => "\x27" ++ s ++ "\x27"
  | .vDate d =>
      "datetime.date(" ++ toString d.year ++ ", " ++ toString d.month ++ ", " ++
        toString d.day ++ ")"
  | .vDatetime dt =>
      "datetime.datetime(" ++ toString dt.year ++ ", " ++ toString dt.month ++ ", " ++
        toString dt.day ++ ", " ++ toString dt.hour ++ ", " ++ toString dt.minute ++ ", " ++
        toString dt.second ++ ")"

/-- The comparison `sorted` uses on the `(key, value)` tuples: dict keys
are unique, so Python's lexicographic tuple order is decided by the keys
alone and never reaches the values. -/
def keyLe (a b : String × Value) : Bool :=
  decide (a.1 ≤ b.1)

/-- `sorted(self.__dict__.items())` restricted to the non-underscore
items: sorting the pairs by key (with a stable merge sort) is the same
ordering as Python's sort of the tuples. -/
def reprItems (e : Inst) : List (String × Value) :=
  (publicItems e).mergeSort keyLe

/-- `Base.__repr__(self)`:
`ClassName(attr1=repr(val1), attr2=repr(val2), ...)` over the sorted,
non-underscore attributes. -/
def reprModel (class_name : String) (e : Inst) : String :=
  class_name ++ "(" ++
    String.intercalate ", "
      ((reprItems e).map (fun kv => kv.1 ++ "=" ++ pyRepr kv.2)) ++ ")"

/- ### table args (`Base.__table_args__`, `db.py` lines 92-113) -/

/-- One element of the `__table_args__` tuple: an entity-declared
constraint (index, unique constraint, ...) or the fixed dict of
storage-engine defaults (`mysql_engine`, `mysql_charset`,
`mysql_collate`). -/
inductive TableArg where
  | constraint (name : String)
  | engineDefaults
deriving Repr, DecidableEq

/-- `Base.__table_args__(cls)`:

    t_args = []
    if cls.__constraints:
        t_args.append(cls.__constraints)
    t_args.append(cls.__table_args)
    return tuple(t_args)

`constraints` is the value of the `__constraints` slot the method reads
(`None`, the falsy default, when the entity declares none). -/
def table_args (constraints : Option TableArg) : List TableArg :=
  let t_args : List TableArg := []
  let t_args := match constraints with
    | some c => t_args ++ [c]
    | none => t_args
  t_args ++ [TableArg.engineDefaults]

/-- A concrete stand-in for the standard-library JSON parser, used to
evaluate `from_json` on closed inputs: it rejects the lone `\x7b` (a
truncated object) with the decoder's message and accepts anything else
as the empty object. -/
def loadsStub : String → Except String (List (String × Value)) :=
  fun t =>
    if t = "\x7b" then .error "Expecting property name enclosed in double quotes"
    else .ok []

/- ## Theorems -/

/-- C1: the claim says the session and the connection are both closed on
every exit of the body, including a raised exception.  The generator's
`yield` is not wrapped in `try/finally`, so when the body raises (here:
the re-raised save error), both `close()` calls are skipped and both
resources stay open; only the normal return runs the teardown. -/
theorem C1_session_leaks_on_exception :
    (with_session (Outcome.raised (PyError.unableToSaveModelInDB "commit failed") :
        Outcome Nat)).2 =
      { connOpen := true, sessOpen := true } ∧
    (with_session (Outcome.ok (0 : Nat))).2 =
      { connOpen := false, sessOpen := false } :=
  ⟨rfl, rfl⟩

/-- C2: at the entity with the single non-date attribute `name`, the
round trip `from_dict(to_dict(e))` raises `NameError` (the broken
`is_date` helper) instead of reconstructing an attribute-equal
instance. -/
theorem C2_roundtrip_raises_nameerror :
    to_dict ⟨[("name", Value.vStr "Jon")]⟩ = [("name", Value.vStr "Jon")] ∧
    from_dict (to_dict ⟨[("name", Value.vStr "Jon")]⟩) = .error PyError.nameError := by
  have h1 : to_dict ⟨[("name", Value.vStr "Jon")]⟩ = [("name", Value.vStr "Jon")] := by
    simp [to_dict, publicItems, startsUnderscore]
  exact ⟨h1, by rw [h1]; rfl⟩

/-- C3: whenever the id argument is `None` or not of the primary key's
declared integer type (Python's `isinstance(id, int)`), `fetch` raises
`InvalidModelId` at once: no session is opened and no query issued. -/
theorem C3_invalid_id_raises_before_session (id : Value) (db : DB)
    (h : id = Value.vNone ∨ id.isinstanceInt = false) :
    fetch id db =
      (.error (.invalidModelId "Model\x27s id must be of type int"), ⟨false, false⟩) := by
  have hc : id = Value.vNone ∨ ¬ id.isinstanceInt := by
    rcases h with h | h
    · exact Or.inl h
    · exact Or.inr (by simp [h])
  rw [fetch, if_pos hc]

theorem C3_invalid_id_raises_before_session_witness :
    fetch (Value.vStr "42") [] =
      (.error (.invalidModelId "Model\x27s id must be of type int"), ⟨false, false⟩) :=
  C3_invalid_id_raises_before_session (Value.vStr "42") [] (Or.inr rfl)

/-- C4: the claim says `instance.fetch()` with the id omitted resolves the
id from the instance's own `id` attribute and loads that row.  `fetch` is
a `@classmethod` whose `id` parameter defaults to `None`; it never reads
the instance, so even an instance with a valid id of `1`, whose row is in
the database, gets `InvalidModelId` instead of the row. -/
theorem C4_instance_fetch_ignores_own_id :
    fetch_on_instance ⟨[("id", Value.vInt 1), ("name", Value.vStr "Jon")]⟩
        [⟨[("id", Value.vInt 1), ("name", Value.vStr "Jon")]⟩] =
      (.error (.invalidModelId "Model\x27s id must be of type int"), ⟨false, false⟩) := by
  rw [fetch_on_instance, fetch, if_pos (Or.inl rfl)]

/-- C5: on a commit that fails at the database layer (a `SQLAlchemyError`,
or any other exception), `save` rolls the transaction back, leaves the
persisted rows untouched (no partial write), and raises a
`SavingModelFailed`-kind error (`UnableToSaveModelInDB` or
`SavingModelFailed`) wrapping the underlying message; and whenever the
instance's id is non-null, the instance was merged before being staged. -/
theorem C5_save_failure_rolls_back (self : Inst) (db : DB) (c : CommitOutcome) (msg : String)
    (h : c = CommitOutcome.sqlalchemyError msg ∨ c = CommitOutcome.unknownError msg) :
    ((save self db c).result = .error (.unableToSaveModelInDB msg) ∨
      (save self db c).result = .error (.savingModelFailed msg)) ∧
    (save self db c).rolledBack = true ∧
    (save self db c).db = db ∧
    (self.idVal ≠ Value.vNone → (save self db c).mergedFirst = true) := by
  rcases h with h | h <;> subst h
  · exact ⟨Or.inl rfl, rfl, rfl, fun hid => by simp [save, hid]⟩
  · exact ⟨Or.inr rfl, rfl, rfl, fun hid => by simp [save, hid]⟩

theorem C5_save_failure_rolls_back_witness :
    ((save ⟨[("id", Value.vInt 1)]⟩ [] (CommitOutcome.sqlalchemyError "boom")).result =
        .error (.unableToSaveModelInDB "boom") ∨
      (save ⟨[("id", Value.vInt 1)]⟩ [] (CommitOutcome.sqlalchemyError "boom")).result =
        .error (.savingModelFailed "boom")) ∧
    (save ⟨[("id", Value.vInt 1)]⟩ [] (CommitOutcome.sqlalchemyError "boom")).rolledBack = true ∧
    (save ⟨[("id", Value.vInt 1)]⟩ [] (CommitOutcome.sqlalchemyError "boom")).db = [] ∧
    (Inst.idVal ⟨[("id", Value.vInt 1)]⟩ ≠ Value.vNone →
      (save ⟨[("id", Value.vInt 1)]⟩ [] (CommitOutcome.sqlalchemyError "boom")).mergedFirst =
        true) :=
  C5_save_failure_rolls_back ⟨[("id", Value.vInt 1)]⟩ [] _ "boom" (Or.inl rfl)

/-- C6: with valid attribute filters, `select` returns a list (never
`None` — by type), raising no error: the empty list when nothing
matches, at most `N` rows under `limit=N`, and every returned row
satisfies every given exact-equality filter. -/
theorem C6_select_returns_matching_list (schema : List String) (db : DB)
    (filters : List (String × Value)) (limit : Option Nat)
    (hvalid : filters.all (fun kv => schema.contains kv.1) = true) :
    ∃ l, select schema db filters limit = .ok l ∧
      (∀ r ∈ l, ∀ kv ∈ filters, r.attrs.lookup kv.1 = some kv.2) ∧
      (∀ n, limit = some n → l.length ≤ n) ∧
      ((∀ r ∈ db, matchesFilters filters r = false) → l = []) := by
  refine ⟨applyLimit (db.filter (matchesFilters filters)) limit, ?_, ?_, ?_, ?_⟩
  · rw [select, if_pos hvalid]
  · intro r hr kv hkv
    have hr' : r ∈ db.filter (matchesFilters filters) := by
      cases limit with
      | none => exact hr
      | some n => exact List.mem_of_mem_take hr
    have hm : matchesFilters filters r = true := List.of_mem_filter hr'
    exact of_decide_eq_true (List.all_eq_true.mp hm kv hkv)
  · intro n hn
    subst hn
    simp [applyLimit]
  · intro hnone
    have hf : db.filter (matchesFilters filters) = [] := by
      rw [List.filter_eq_nil_iff]
      intro a ha
      simp [hnone a ha]
    cases limit <;> simp [applyLimit, hf]

theorem C6_select_returns_matching_list_witness :
    (([("name", Value.vStr "Jon")] : List (String × Value)).all
        (fun kv => (["id", "name"] : List String).contains kv.1) = true) ∧
    (∃ l, select ["id", "name"]
        [⟨[("id", Value.vInt 1), ("name", Value.vStr "Jon")]⟩,
         ⟨[("id", Value.vInt 2), ("name", Value.vStr "Tom")]⟩]
        [("name", Value.vStr "Jon")] (some 5) = .ok l ∧
      (∀ r ∈ l, ∀ kv ∈ [("name", Value.vStr "Jon")], r.attrs.lookup kv.1 = some kv.2) ∧
      (∀ n, (some 5 : Option Nat) = some n → l.length ≤ n) ∧
      ((∀ r ∈ [⟨[("id", Value.vInt 1), ("name", Value.vStr "Jon")]⟩,
          (⟨[("id", Value.vInt 2), ("name", Value.vStr "Tom")]⟩ : Inst)],
        matchesFilters [("name", Value.vStr "Jon")] r = false) → l = [])) :=
  ⟨by decide,
   C6_select_returns_matching_list ["id", "name"]
    [⟨[("id", Value.vInt 1), ("name", Value.vStr "Jon")]⟩,
     ⟨[("id", Value.vInt 2), ("name", Value.vStr "Tom")]⟩]
    [("name", Value.vStr "Jon")] (some 5) (by decide)⟩

/-- C7: `from_json` first runs the JSON decoder: a text the decoder
rejects raises `UnableToCreateModelFromJSON` wrapping the decoder's
message (no lower-level decode exception escapes — the translation is the
only error exit of the parse step); a text the decoder accepts is handed
to `from_dict`. -/
theorem C7_from_json_translates_decode_errors
    (loads : String → Except String (List (String × Value))) (text : String) :
    (∀ msg, loads text = .error msg →
      from_json loads text = .error (.unableToCreateModelFromJSON msg)) ∧
    (∀ d, loads text = .ok d → from_json loads text = from_dict d) := by
  constructor
  · intro msg h
    rw [from_json, h]
  · intro d h
    rw [from_json, h]

theorem C7_from_json_translates_decode_errors_witness :
    from_json loadsStub "\x7b" =
      .error (.unableToCreateModelFromJSON
        "Expecting property name enclosed in double quotes") ∧
    from_json loadsStub "null" = from_dict [] :=
  ⟨(C7_from_json_translates_decode_errors loadsStub "\x7b").1 _ rfl,
   (C7_from_json_translates_decode_errors loadsStub "null").2 [] rfl⟩

/-- C9 counterexample: for an entity declaring the constraint `ix_name`,
the table-argument tuple is `(constraint, defaults)` — the constraint
stands strictly before the storage-engine defaults, not appended after
them as the claim states. -/
theorem C9_constraints_order_counterexample :
    table_args (some (TableArg.constraint "ix_name")) =
      [TableArg.constraint "ix_name", TableArg.engineDefaults] ∧
    table_args (some (TableArg.constraint "ix_name")) ≠
      [TableArg.engineDefaults, TableArg.constraint "ix_name"] := by
  exact ⟨rfl, by decide⟩

/-- C9 amended: the table-argument tuple always contains the fixed
storage-engine defaults (they are its last element), and when the entity
declares extra constraints, those are prepended before the defaults —
never replacing them. -/
theorem C9_defaults_always_present (constraints : Option TableArg) :
    TableArg.engineDefaults ∈ table_args constraints ∧
    (table_args constraints).getLast? = some TableArg.engineDefaults ∧
    (∀ c, constraints = some c →
      table_args constraints = [c, TableArg.engineDefaults]) := by
  rcases constraints with _ | c <;> simp [table_args]

theorem C9_defaults_always_present_witness :
    table_args (some (TableArg.constraint "uq_col")) =
      [TableArg.constraint "uq_col", TableArg.engineDefaults] :=
  (C9_defaults_always_present (some (TableArg.constraint "uq_col"))).2.2
    (TableArg.constraint "uq_col") rfl

/-- C10: `is_date` raises `NameError` on every argument (its body reads
the undefined name `string` instead of the parameter `date_string`), so
`from_dict` of any mapping with at least one item raises `NameError`
instead of returning an instance or one of the documented domain
errors. -/
theorem C10_is_date_always_raises_nameerror :
    (∀ (v : Value) (fz : Bool), is_date v fz = .error PyError.nameError) ∧
    (∀ pairs : List (String × Value), pairs ≠ [] →
      from_dict pairs = .error PyError.nameError) := by
  refine ⟨fun v fz => rfl, fun pairs h => ?_⟩
  match pairs with
  | [] => exact absurd rfl h
  | (k, v) :: rest => rfl

theorem C10_is_date_always_raises_nameerror_witness :
    from_dict [("name", Value.vStr "Jon")] = .error PyError.nameError :=
  C10_is_date_always_raises_nameerror.2 [("name", Value.vStr "Jon")]
    (List.cons_ne_nil _ _)

/-- `keyLe` is transitive, as the merge sort requires. -/
theorem keyLe_trans : ∀ a b c : String × Value, keyLe a b → keyLe b c → keyLe a c :=
  fun _ _ _ hab hbc =>
    decide_eq_true (le_trans (of_decide_eq_true hab) (of_decide_eq_true hbc))

/-- `keyLe` is total, as the merge sort requires. -/
theorem keyLe_total : ∀ a b : String × Value, keyLe a b || keyLe b a := by
  intro a b
  rcases le_total a.1 b.1 with h | h
  · simp [keyLe, h]
  · simp [keyLe, h]

/-- A list of pairs that is sorted by `keyLe` and has pairwise-distinct
keys is sorted by the strict key order. -/
theorem pairwise_keyLt_of_sorted_nodup (l : List (String × Value))
    (hle : l.Pairwise fun a b => keyLe a b = true)
    (hnd : (l.map Prod.fst).Nodup) :
    l.Pairwise fun a b : String × Value => a.1 < b.1 := by
  have hne : l.Pairwise fun a b : String × Value => a.1 ≠ b.1 :=
    List.pairwise_map.mp hnd
  exact (hle.and hne).imp fun h => lt_of_le_of_ne (of_decide_eq_true h.1) h.2

/-- Two instances whose attribute dicts hold the same items (in any
order, with unique keys) have the same sorted public item list. -/
theorem reprItems_eq_of_perm (e1 e2 : Inst)
    (hnd : (e1.attrs.map Prod.fst).Nodup)
    (hperm : e1.attrs.Perm e2.attrs) :
    reprItems e1 = reprItems e2 := by
  have hp : (publicItems e1).Perm (publicItems e2) := hperm.filter _
  have hm1 : (reprItems e1).Perm (publicItems e1) := List.mergeSort_perm _ _
  have hm2 : (reprItems e2).Perm (publicItems e2) := List.mergeSort_perm _ _
  have hp' : (reprItems e1).Perm (reprItems e2) := hm1.trans (hp.trans hm2.symm)
  have hnd1 : ((publicItems e1).map Prod.fst).Nodup :=
    hnd.sublist ((List.filter_sublist _).map Prod.fst)
  have hndr1 : ((reprItems e1).map Prod.fst).Nodup :=
    ((hm1.map Prod.fst).nodup_iff).mpr hnd1
  have hndr2 : ((reprItems e2).map Prod.fst).Nodup :=
    ((hp'.map Prod.fst).nodup_iff).mp hndr1
  have hs1 : (reprItems e1).Pairwise fun a b => keyLe a b = true :=
    List.sorted_mergeSort keyLe_trans keyLe_total _
  have hs2 : (reprItems e2).Pairwise fun a b => keyLe a b = true :=
    List.sorted_mergeSort keyLe_trans keyLe_total _
  haveI : IsAntisymm (String × Value) (fun a b => a.1 < b.1) :=
    ⟨fun _ _ hab hba => (lt_asymm hab hba).elim⟩
  exact List.eq_of_perm_of_sorted hp'
    (pairwise_keyLt_of_sorted_nodup _ hs1 hndr1)
    (pairwise_keyLt_of_sorted_nodup _ hs2 hndr2)

/-- C8: the rendered representation lists the non-underscore attributes
in sorted-name order, excludes every private (underscore-prefixed)
attribute, and is byte-identical for two instances holding the same
attribute names and values, whatever order assignment gave them. -/
theorem C8_repr_sorted_deterministic (cn : String) (e1 e2 : Inst)
    (hnd : (e1.attrs.map Prod.fst).Nodup)
    (hperm : e1.attrs.Perm e2.attrs) :
    reprModel cn e1 = reprModel cn e2 ∧
    ((reprItems e1).map Prod.fst).Sorted (· ≤ ·) ∧
    (∀ kv ∈ reprItems e1, startsUnderscore kv.1 = false) := by
  refine ⟨?_, ?_, ?_⟩
  · rw [reprModel, reprModel, reprItems_eq_of_perm e1 e2 hnd hperm]
  · have hs1 : (reprItems e1).Pairwise fun a b => keyLe a b = true :=
      List.sorted_mergeSort keyLe_trans keyLe_total _
    exact List.pairwise_map.mpr (hs1.imp fun h => of_decide_eq_true h)
  · intro kv hkv
    have hmem : kv ∈ publicItems e1 := List.mem_mergeSort.mp hkv
    have := List.of_mem_filter hmem
    simpa using this

theorem C8_repr_sorted_deterministic_witness :
    reprModel "Dummy" ⟨[("name", Value.vStr "Jon"), ("id", Value.vInt 1)]⟩ =
      reprModel "Dummy" ⟨[("id", Value.vInt 1), ("name", Value.vStr "Jon")]⟩ ∧
    ((reprItems ⟨[("name", Value.vStr "Jon"), ("id", Value.vInt 1)]⟩).map
        Prod.fst).Sorted (· ≤ ·) ∧
    (∀ kv ∈ reprItems ⟨[("name", Value.vStr "Jon"), ("id", Value.vInt 1)]⟩,
      startsUnderscore kv.1 = false) :=
  C8_repr_sorted_deterministic "Dummy"
    ⟨[("name", Value.vStr "Jon"), ("id", Value.vInt 1)]⟩
    ⟨[("id", Value.vInt 1), ("name", Value.vStr "Jon")]⟩
    (by decide) (List.Perm.swap _ _ _)

end Kyo
